import Mathlib

/-!
Verification development for the Ahouba third-person scene (`src/main.js`).

The movement / camera / collision / mission core of the program is embedded
shallowly over the real numbers: Three.js `Vector3` becomes `Vec3`,
`Box3` becomes `Box3`, the per-frame globals (`velocity`, `isGrounded`,
`isSprinting`, `character.position`, `character.rotation.y`) become the
fields of `PlayerState`, and the per-frame functions
(`updatePlayerMovement`, `wouldCollide`, `clampCharacterPosition`,
`updateCamera`, `checkMissionProximity`, the Space-key jump handler) become
Lean functions over that state.  JavaScript numbers are idealised as exact
reals; `Math.sqrt` is `Real.sqrt`, `Math.atan2` is `Complex.arg`, and the
JavaScript remainder operator is `jsMod` (truncated division).  Scene-graph
visuals (animation clip cross-fades, the soldier mesh tilt on
`character.children[0]`, sprites, lights) have no bearing on the simulated
state and are not modelled.
-/

noncomputable section

open scoped Classical

namespace Ahouba

/-- A 3-component vector, mirroring `THREE.Vector3` (only the data). -/
structure Vec3 where
  x : ℝ
  y : ℝ
  z : ℝ
  deriving DecidableEq

/-- Componentwise sum, mirroring `Vector3.add`. -/
def vadd (a b : Vec3) : Vec3 := ⟨a.x + b.x, a.y + b.y, a.z + b.z⟩

/-- Componentwise difference, mirroring `Vector3.sub`. -/
def vsub (a b : Vec3) : Vec3 := ⟨a.x - b.x, a.y - b.y, a.z - b.z⟩

/-- Scalar multiple, mirroring `Vector3.multiplyScalar`. -/
def vscale (c : ℝ) (a : Vec3) : Vec3 := ⟨c * a.x, c * a.y, c * a.z⟩

/-- Cross product, mirroring `Vector3.crossVectors`. -/
def cross (a b : Vec3) : Vec3 :=
  ⟨a.y * b.z - a.z * b.y, a.z * b.x - a.x * b.z, a.x * b.y - a.y * b.x⟩

/-- Squared length, mirroring `Vector3.lengthSq` (`x*x + y*y + z*z`). -/
def lengthSq (v : Vec3) : ℝ := v.x * v.x + v.y * v.y + v.z * v.z

/-- `Vector3.normalize`: divide by `length || 1` (Three.js substitutes `1`
for a zero length before dividing). -/
def normalize (v : Vec3) : Vec3 :=
  let l := Real.sqrt (lengthSq v)
  let l1 := if l = 0 then 1 else l
  ⟨v.x / l1, v.y / l1, v.z / l1⟩

/-- `Vector3.distanceTo`: Euclidean distance. -/
def distanceTo (a b : Vec3) : ℝ :=
  Real.sqrt ((a.x - b.x) ^ 2 + (a.y - b.y) ^ 2 + (a.z - b.z) ^ 2)

/-- Horizontal speed `Math.sqrt(velocity.x ** 2 + velocity.z ** 2)` as
computed at `src/main.js:753`, `762` and `792`. -/
def hSpeed (v : Vec3) : ℝ := Real.sqrt (v.x ^ 2 + v.z ^ 2)

/-- `THREE.MathUtils.lerp(x, y, t) = (1 - t) * x + t * y`. -/
def lerp (x y t : ℝ) : ℝ := (1 - t) * x + t * y

/-- `THREE.MathUtils.clamp(value, lo, hi) = Math.max(lo, Math.min(hi, value))`. -/
def clampR (v lo hi : ℝ) : ℝ := max lo (min hi v)

/-- `Vector3.lerp(v, alpha)`: move each component a fraction `alpha` toward `v`. -/
def vlerp (a b : Vec3) (t : ℝ) : Vec3 :=
  ⟨a.x + (b.x - a.x) * t, a.y + (b.y - a.y) * t, a.z + (b.z - a.z) * t⟩

/-- `Math.atan2 y x` via the complex argument of `x + y i`. -/
def atan2 (y x : ℝ) : ℝ := Complex.arg ⟨x, y⟩

/-- Truncation toward zero, the rounding used by the JavaScript `%` operator. -/
def jsTrunc (x : ℝ) : ℝ := if 0 ≤ x then ((⌊x⌋ : ℤ) : ℝ) else ((⌈x⌉ : ℤ) : ℝ)

/-- The JavaScript remainder `a % n = a - n * trunc(a / n)`. -/
def jsMod (a n : ℝ) : ℝ := a - n * jsTrunc (a / n)

/-! ### Physics and movement constants (`src/main.js:569-575`, `459-460`, `936`) -/

def GRAVITY : ℝ := -35
def JUMP_FORCE : ℝ := 12
def WALK_SPEED : ℝ := 8
def SPRINT_SPEED : ℝ := 15
def ACCELERATION : ℝ := 60
def DECELERATION : ℝ := 40
def AIR_CONTROL : ℝ := 0.5
def PLAYER_RADIUS : ℝ := 0.6
def PLAYER_HEIGHT : ℝ := 2.0
def INTERACT_DISTANCE : ℝ := 4.0

/-- Camera constants (`src/main.js:296-302`).  `MIN_PITCH` and `MAX_PITCH`
are declared at lines 298-299; their only use (line 318) is commented out. -/
def MIN_PITCH : ℝ := -4.2
def MAX_PITCH : ℝ := 1.2
def CAMERA_SMOOTHING : ℝ := 5

/-- World bounds rectangle `MAP_BOUNDS` (`src/main.js:471`). -/
structure MapBounds where
  minX : ℝ
  maxX : ℝ
  minZ : ℝ
  maxZ : ℝ

def MAP_BOUNDS : MapBounds := ⟨-145, 180, -80, 240⟩

/-! ### Collision oracle (`src/main.js:432-469`) -/

/-- An axis-aligned box, mirroring `THREE.Box3` (the entries of
`blockedBoxes`; the mesh name stored alongside each box is irrelevant to
the collision test and omitted). -/
structure Box3 where
  min : Vec3
  max : Vec3

/-- The player's bounding box anchored at a candidate position
(`src/main.js:463-464`). -/
def playerBoxAt (p : Vec3) : Box3 :=
  ⟨⟨p.x - PLAYER_RADIUS, p.y, p.z - PLAYER_RADIUS⟩,
   ⟨p.x + PLAYER_RADIUS, p.y + PLAYER_HEIGHT, p.z + PLAYER_RADIUS⟩⟩

/-- `Box3.intersectsBox` of Three.js: overlap (touching included) on all
three axes.  `a` plays the role of `this` (the player box), `b` the
argument (a blocked box). -/
def intersectsBox (a b : Box3) : Prop :=
  b.max.x ≥ a.min.x ∧ b.min.x ≤ a.max.x ∧
  b.max.y ≥ a.min.y ∧ b.min.y ≤ a.max.y ∧
  b.max.z ≥ a.min.z ∧ b.min.z ≤ a.max.z

/-- `wouldCollide(nextPos)` (`src/main.js:462-469`): the player box at
`nextPos` intersects some registered collider box. -/
def wouldCollide (boxes : List Box3) (nextPos : Vec3) : Prop :=
  ∃ b ∈ boxes, intersectsBox (playerBoxAt nextPos) b

/-- `clampCharacterPosition` (`src/main.js:472-475`): clamp `x`/`z` to
`MAP_BOUNDS`; `y` untouched. -/
def clampCharacterPosition (p : Vec3) : Vec3 :=
  ⟨max MAP_BOUNDS.minX (min MAP_BOUNDS.maxX p.x),
   p.y,
   max MAP_BOUNDS.minZ (min MAP_BOUNDS.maxZ p.z)⟩

/-! ### Input aggregation (`src/main.js:584-667`, read at `727-739`) -/

/-- The input snapshot a frame reads: the held-key map entries consulted by
`updatePlayerMovement` (`keys.w/a/s/d/shift`) and the virtual joystick
vector `joyVector`. -/
structure InputState where
  w : Bool
  a : Bool
  s : Bool
  d : Bool
  shift : Bool
  joyX : ℝ
  joyY : ℝ

/-- `joyVector.lengthSq()` for a `THREE.Vector2`. -/
def joyLengthSq (inp : InputState) : ℝ := inp.joyX * inp.joyX + inp.joyY * inp.joyY

/-- `camForward` (`src/main.js:727`). -/
def camForward (yaw : ℝ) : Vec3 := ⟨-Real.sin yaw, 0, -Real.cos yaw⟩

/-- `camRight` (`src/main.js:728`): `camForward × (0,1,0)`. -/
def camRight (yaw : ℝ) : Vec3 := cross (camForward yaw) ⟨0, 1, 0⟩

/-- `inputDir` accumulation (`src/main.js:730-739`): key contributions in
code order, then the joystick contribution when its squared length is over
the `0.01` dead-zone. -/
def inputDir (yaw : ℝ) (inp : InputState) : Vec3 :=
  let d0 : Vec3 := ⟨0, 0, 0⟩
  let d1 := if inp.w = true then vadd d0 (camForward yaw) else d0
  let d2 := if inp.s = true then vsub d1 (camForward yaw) else d1
  let d3 := if inp.a = true then vsub d2 (camRight yaw) else d2
  let d4 := if inp.d = true then vadd d3 (camRight yaw) else d3
  if 0.01 < joyLengthSq inp then
    vadd (vadd d4 (vscale (-inp.joyY) (camForward yaw))) (vscale inp.joyX (camRight yaw))
  else d4

/-- `isSprinting = keys.shift && inputDir.lengthSq() > 0` (`src/main.js:741`). -/
def sprintFlag (yaw : ℝ) (inp : InputState) : Bool :=
  if inp.shift = true ∧ 0 < lengthSq (inputDir yaw inp) then true else false

/-- `targetSpeed` (`src/main.js:742`). -/
def targetSpeed (yaw : ℝ) (inp : InputState) : ℝ :=
  if sprintFlag yaw inp = true then SPRINT_SPEED else WALK_SPEED

/-! ### Player state and the movement integrator (`src/main.js:726-819`) -/

/-- The mutable movement globals of `src/main.js`: `character.position`,
`velocity`, `character.rotation.y`, `isGrounded`, `isSprinting`. -/
structure PlayerState where
  pos : Vec3
  vel : Vec3
  rotY : ℝ
  isGrounded : Bool
  isSprinting : Bool

/-- The acceleration / deceleration phase (`src/main.js:744-767`): with
nonzero intent, normalize, accelerate and cap the horizontal speed at
`targetSpeed`; otherwise decay the horizontal speed toward zero. -/
def velocityAfterInput (δ yaw : ℝ) (inp : InputState) (grounded : Bool) (vel : Vec3) : Vec3 :=
  let dir := inputDir yaw inp
  let ts := targetSpeed yaw inp
  if 0.001 < lengthSq dir then
    let nd := normalize dir
    let accel := if grounded = true then ACCELERATION else ACCELERATION * AIR_CONTROL
    let v1 : Vec3 := ⟨vel.x + nd.x * accel * δ, vel.y, vel.z + nd.z * accel * δ⟩
    let h := hSpeed v1
    if ts < h then ⟨v1.x * (ts / h), v1.y, v1.z * (ts / h)⟩ else v1
  else
    let decel := if grounded = true then DECELERATION else DECELERATION * AIR_CONTROL
    let h := hSpeed vel
    let nh := max 0 (h - decel * δ)
    let scale := if 0 < h then nh / h else 0
    ⟨vel.x * scale, vel.y, vel.z * scale⟩

/-- The velocity after the acceleration step, before the cap
(`src/main.js:746-750`), packaged for reasoning about the cap. -/
def accelVec (δ yaw : ℝ) (inp : InputState) (g : Bool) (v : Vec3) : Vec3 :=
  let nd := normalize (inputDir yaw inp)
  let accel := if g = true then ACCELERATION else ACCELERATION * AIR_CONTROL
  ⟨v.x + nd.x * accel * δ, v.y, v.z + nd.z * accel * δ⟩

/-- Gravity (`src/main.js:769`): `if (!isGrounded) velocity.y += GRAVITY * delta`. -/
def applyGravity (δ : ℝ) (grounded : Bool) (v : Vec3) : Vec3 :=
  if grounded = true then v else ⟨v.x, v.y + GRAVITY * δ, v.z⟩

/-- The frame's velocity after the acceleration and gravity phases. -/
def frameVelocity (δ yaw : ℝ) (inp : InputState) (st : PlayerState) : Vec3 :=
  applyGravity δ st.isGrounded (velocityAfterInput δ yaw inp st.isGrounded st.vel)

/-- The candidate next position `nextPos` (`src/main.js:772-775`). -/
def candidatePos (δ yaw : ℝ) (inp : InputState) (st : PlayerState) : Vec3 :=
  let v2 := frameVelocity δ yaw inp st
  ⟨st.pos.x + v2.x * δ, st.pos.y + v2.y * δ, st.pos.z + v2.z * δ⟩

/-- The tail of the frame given the velocity `v1` produced by the
acceleration phase: gravity, collision test (`src/main.js:777-779` — when
blocked, the position update is refused and nothing else changes), bounds
clamp (line 780), floor resolution (lines 783-789) and facing rotation
(lines 792-797; the visual mesh tilt on `character.children[0]` is not
part of the simulated state). -/
def updateFromVelocity (δ yaw : ℝ) (inp : InputState) (boxes : List Box3)
    (st : PlayerState) (v1 : Vec3) : PlayerState :=
  let v2 := applyGravity δ st.isGrounded v1
  let nextPos : Vec3 := ⟨st.pos.x + v2.x * δ, st.pos.y + v2.y * δ, st.pos.z + v2.z * δ⟩
  let movedPos := if wouldCollide boxes nextPos then st.pos else nextPos
  let clamped := clampCharacterPosition movedPos
  let newPos := if clamped.y ≤ 0 then (⟨clamped.x, 0, clamped.z⟩ : Vec3) else clamped
  let v3 := if clamped.y ≤ 0 then (⟨v2.x, 0, v2.z⟩ : Vec3) else v2
  let g3 := if clamped.y ≤ 0 then true else if 0.1 < clamped.y then false else st.isGrounded
  let h := hSpeed v3
  let newRot :=
    if 0.5 < h then
      st.rotY + (jsMod (atan2 v3.x v3.z - st.rotY + Real.pi) (2 * Real.pi) - Real.pi) * 15 * δ
    else st.rotY
  ⟨newPos, v3, newRot, g3, sprintFlag yaw inp⟩

/-- `updatePlayerMovement(delta)` (`src/main.js:726-819`), as a function of
the frame delta, the camera yaw it reads, the input snapshot, the collider
list and the player state. -/
def updatePlayerMovement (δ yaw : ℝ) (inp : InputState) (boxes : List Box3)
    (st : PlayerState) : PlayerState :=
  updateFromVelocity δ yaw inp boxes st (velocityAfterInput δ yaw inp st.isGrounded st.vel)

/-- Iterated frames: `runFrames δs yaws inps boxes st n` is the state after
`n` animation-loop calls of `updatePlayerMovement`, frame `k` using
`δs k`, `yaws k` and `inps k`. -/
def runFrames (δs yaws : ℕ → ℝ) (inps : ℕ → InputState) (boxes : List Box3)
    (st : PlayerState) : ℕ → PlayerState
  | 0 => st
  | Nat.succ n => updatePlayerMovement (δs n) (yaws n) (inps n) boxes
      (runFrames δs yaws inps boxes st n)

/-- The Space-key part of the `keydown` handler (`src/main.js:585-591`):
if grounded, set `velocity.y = JUMP_FORCE` and clear `isGrounded`. -/
def jumpKeydown (st : PlayerState) : PlayerState :=
  if st.isGrounded = true then
    { st with vel := ⟨st.vel.x, JUMP_FORCE, st.vel.z⟩, isGrounded := false }
  else st

/-- Zero movement intent: none of `w`/`a`/`s`/`d` held and the joystick at
or below its `0.01` squared-length dead-zone. -/
def ZeroIntent (inp : InputState) : Prop :=
  inp.w = false ∧ inp.a = false ∧ inp.s = false ∧ inp.d = false ∧ joyLengthSq inp ≤ 0.01

/-- The ground-contact invariant of the frame loop: height never below the
ground plane, and a grounded player sits exactly on it with no vertical
velocity (established at spawn, where the character starts at `y = 0`
grounded with zero velocity). -/
def GroundInv (st : PlayerState) : Prop :=
  0 ≤ st.pos.y ∧ (st.isGrounded = true → st.pos.y = 0 ∧ st.vel.y = 0)

/-! ### Division-guard instrumentation of the integrator

`velocityAfterInputChecked` is `velocityAfterInput` with every division
site of the normalization and speed-scaling steps demanding a nonzero
denominator (`none` on a zero denominator instead of Three.js's `|| 1`
fallback or JavaScript's `Infinity`/`NaN`). -/

/-- Division refusing a zero denominator. -/
def guardedDiv (a b : ℝ) : Option ℝ := if b = 0 then none else some (a / b)

/-- `Vector3.normalize` with the division by the length checked. -/
def checkedNormalize (v : Vec3) : Option Vec3 :=
  let l := Real.sqrt (lengthSq v)
  if l = 0 then none else some ⟨v.x / l, v.y / l, v.z / l⟩

/-- The acceleration / deceleration phase with checked divisions. -/
def velocityAfterInputChecked (δ yaw : ℝ) (inp : InputState) (grounded : Bool)
    (vel : Vec3) : Option Vec3 :=
  let dir := inputDir yaw inp
  let ts := targetSpeed yaw inp
  if 0.001 < lengthSq dir then
    (checkedNormalize dir).bind fun nd =>
      let accel := if grounded = true then ACCELERATION else ACCELERATION * AIR_CONTROL
      let v1 : Vec3 := ⟨vel.x + nd.x * accel * δ, vel.y, vel.z + nd.z * accel * δ⟩
      let h := hSpeed v1
      if ts < h then (guardedDiv ts h).bind fun scale =>
        some ⟨v1.x * scale, v1.y, v1.z * scale⟩
      else some v1
  else
    let decel := if grounded = true then DECELERATION else DECELERATION * AIR_CONTROL
    let h := hSpeed vel
    let nh := max 0 (h - decel * δ)
    (if 0 < h then guardedDiv nh h else some 0).bind fun scale =>
      some ⟨vel.x * scale, vel.y, vel.z * scale⟩

/-- `updatePlayerMovement` with the checked acceleration phase. -/
def updatePlayerMovementChecked (δ yaw : ℝ) (inp : InputState) (boxes : List Box3)
    (st : PlayerState) : Option PlayerState :=
  (velocityAfterInputChecked δ yaw inp st.isGrounded st.vel).map
    (updateFromVelocity δ yaw inp boxes st)

/-! ### Camera rig (`src/main.js:696-723`) -/

/-- The camera globals `yaw`, `pitch` and `camera.position`. -/
structure CameraState where
  yaw : ℝ
  pitch : ℝ
  camPos : Vec3

/-- `updateCamera(delta)` (`src/main.js:696-723`): lerp yaw and pitch
toward their targets by `CAMERA_SMOOTHING * delta`, clamp pitch to
`[-π/10 + 0.001, π/2 - 0.001]`, compute the spherical offset and lerp the
camera position toward `character.position + offset` by `6 * delta` (the
final `lookAt` only orients the camera and carries no modelled state). -/
def updateCamera (δ targetYaw targetPitch cameraDist : ℝ) (charPos : Vec3)
    (c : CameraState) : CameraState :=
  let yaw1 := lerp c.yaw targetYaw (CAMERA_SMOOTHING * δ)
  let pitch1 := lerp c.pitch targetPitch (CAMERA_SMOOTHING * δ)
  let pitch2 := clampR pitch1 (-Real.pi / 10 + 0.001) (Real.pi / 2 - 0.001)
  let offset : Vec3 :=
    ⟨cameraDist * Real.sin yaw1 * Real.cos pitch2,
     cameraDist * Real.sin pitch2,
     cameraDist * Real.cos yaw1 * Real.cos pitch2⟩
  let targetCamPos : Vec3 := ⟨charPos.x + offset.x, charPos.y + offset.y, charPos.z + offset.z⟩
  ⟨yaw1, pitch2, vlerp c.camPos targetCamPos (6 * δ)⟩

/-! ### Mission proximity detector (`src/main.js:824-963`) -/

/-- A mission stop: its group's world position and its key (the float
animation's `baseY` is the `y` of the position literal). -/
structure MissionStop where
  pos : Vec3
  key : String

/-- The scan of `checkMissionProximity` (`src/main.js:948-955`): walk the
list in order and return the index of the first stop strictly within
`INTERACT_DISTANCE` of the player (the loop `break`s at the first hit). -/
def checkMissionProximityList (charPos : Vec3) : List MissionStop → Option ℕ
  | [] => none
  | stop :: rest =>
    if distanceTo stop.pos charPos < INTERACT_DISTANCE then some 0
    else (checkMissionProximityList charPos rest).map (· + 1)

/-- `checkMissionProximity` (`src/main.js:946-963`): the resulting
`activeMission` index, `none` when no stop is in range. -/
def checkMissionProximity (stops : List MissionStop) (charPos : Vec3) : Option ℕ :=
  checkMissionProximityList charPos stops

/-- The four mission stops created at `src/main.js:907-910`. -/
def missionStops : List MissionStop :=
  [⟨⟨0, 0, 130⟩, "events"⟩, ⟨⟨-10, 0, 140⟩, "sponsors"⟩,
   ⟨⟨-18, 0, 130⟩, "glimpses"⟩, ⟨⟨-10, 0, 120⟩, "about"⟩]

/-- Placeholder stop for list indexing with `List.getD`. -/
def noStop : MissionStop := ⟨⟨0, 0, 0⟩, ""⟩

/-! ### Concrete scenario data used by counterexamples and witnesses -/

/-- The idle input snapshot: no keys held, joystick centered. -/
def inpNone : InputState := ⟨false, false, false, false, false, 0, 0⟩

/-- Forward intent: only `w` held. -/
def inpW : InputState := ⟨true, false, false, false, false, 0, 0⟩

/-- A grounded player at the origin at rest. -/
def stRest : PlayerState := ⟨⟨0, 0, 0⟩, ⟨0, 0, 0⟩, 0, true, false⟩

/-- A grounded player at the origin moving at sprint speed along `x`. -/
def stSprint : PlayerState := ⟨⟨0, 0, 0⟩, ⟨15, 0, 0⟩, 0, true, false⟩

/-- A grounded player at walking speed `5` (velocity `(3, 0, 4)`). -/
def stWalk : PlayerState := ⟨⟨0, 0, 0⟩, ⟨3, 0, 4⟩, 0, true, false⟩

/-- A grounded player at `(2, 0, 3)` moving at sprint speed toward a wall. -/
def stNearBox : PlayerState := ⟨⟨2, 0, 3⟩, ⟨15, 0, 0⟩, 0, true, false⟩

/-- An airborne player at height `5` at rest. -/
def stAir : PlayerState := ⟨⟨0, 5, 0⟩, ⟨0, 0, 0⟩, 0, false, false⟩

/-- A collider box whose near face at `x = 2.9` lies just ahead of `stNearBox`. -/
def boxAhead : Box3 := ⟨⟨2.9, 0, 0⟩, ⟨5, 4, 6⟩⟩

/-- A camera at rest with zeroed angles. -/
def camZero : CameraState := ⟨0, 0, ⟨0, 0, 0⟩⟩

/-! ### Basic lemmas about the embedded operations -/

theorem hSpeed_nonneg (v : Vec3) : 0 ≤ hSpeed v := Real.sqrt_nonneg _

theorem hSpeed_eq_of {a b : Vec3} (hx : a.x = b.x) (hz : a.z = b.z) :
    hSpeed a = hSpeed b := by
  unfold hSpeed
  rw [hx, hz]

theorem hSpeed_scale (v : Vec3) (c : ℝ) (hc : 0 ≤ c) :
    hSpeed ⟨v.x * c, v.y, v.z * c⟩ = hSpeed v * c := by
  unfold hSpeed
  rw [show (v.x * c) ^ 2 + (v.z * c) ^ 2 = (v.x ^ 2 + v.z ^ 2) * c ^ 2 by ring,
    Real.sqrt_mul (by positivity), Real.sqrt_sq hc]

theorem hSpeed_axis (a y : ℝ) (ha : 0 ≤ a) : hSpeed ⟨a, y, 0⟩ = a := by
  unfold hSpeed
  rw [show a ^ 2 + (0 : ℝ) ^ 2 = a ^ 2 by ring, Real.sqrt_sq ha]

theorem velocityAfterInput_y (δ yaw : ℝ) (inp : InputState) (g : Bool) (v : Vec3) :
    (velocityAfterInput δ yaw inp g v).y = v.y := by
  unfold velocityAfterInput
  dsimp only
  repeat' split
  all_goals rfl

theorem applyGravity_x (δ : ℝ) (g : Bool) (v : Vec3) : (applyGravity δ g v).x = v.x := by
  unfold applyGravity
  split <;> rfl

theorem applyGravity_z (δ : ℝ) (g : Bool) (v : Vec3) : (applyGravity δ g v).z = v.z := by
  unfold applyGravity
  split <;> rfl

theorem applyGravity_grounded (δ : ℝ) (v : Vec3) : applyGravity δ true v = v := by
  unfold applyGravity
  rfl

theorem hSpeed_applyGravity (δ : ℝ) (g : Bool) (v : Vec3) :
    hSpeed (applyGravity δ g v) = hSpeed v :=
  hSpeed_eq_of (applyGravity_x ..) (applyGravity_z ..)

theorem updateFromVelocity_velx (δ yaw : ℝ) (inp : InputState) (boxes : List Box3)
    (st : PlayerState) (v1 : Vec3) :
    (updateFromVelocity δ yaw inp boxes st v1).vel.x = (applyGravity δ st.isGrounded v1).x := by
  unfold updateFromVelocity
  dsimp only
  repeat' split
  all_goals rfl

theorem updateFromVelocity_velz (δ yaw : ℝ) (inp : InputState) (boxes : List Box3)
    (st : PlayerState) (v1 : Vec3) :
    (updateFromVelocity δ yaw inp boxes st v1).vel.z = (applyGravity δ st.isGrounded v1).z := by
  unfold updateFromVelocity
  dsimp only
  repeat' split
  all_goals rfl

theorem updatePlayerMovement_velx (δ yaw : ℝ) (inp : InputState) (boxes : List Box3)
    (st : PlayerState) :
    (updatePlayerMovement δ yaw inp boxes st).vel.x = (frameVelocity δ yaw inp st).x :=
  updateFromVelocity_velx ..

theorem updatePlayerMovement_velz (δ yaw : ℝ) (inp : InputState) (boxes : List Box3)
    (st : PlayerState) :
    (updatePlayerMovement δ yaw inp boxes st).vel.z = (frameVelocity δ yaw inp st).z :=
  updateFromVelocity_velz ..

theorem updatePlayerMovement_hSpeed (δ yaw : ℝ) (inp : InputState) (boxes : List Box3)
    (st : PlayerState) :
    hSpeed (updatePlayerMovement δ yaw inp boxes st).vel
      = hSpeed (velocityAfterInput δ yaw inp st.isGrounded st.vel) := by
  have h1 : hSpeed (updatePlayerMovement δ yaw inp boxes st).vel
      = hSpeed (applyGravity δ st.isGrounded (velocityAfterInput δ yaw inp st.isGrounded st.vel)) :=
    hSpeed_eq_of (updateFromVelocity_velx ..) (updateFromVelocity_velz ..)
  rw [h1, hSpeed_applyGravity]

theorem targetSpeed_pos (yaw : ℝ) (inp : InputState) : 0 < targetSpeed yaw inp := by
  unfold targetSpeed
  split <;> norm_num [SPRINT_SPEED, WALK_SPEED]

theorem decel_ge (g : Bool) :
    (20 : ℝ) ≤ (if g = true then DECELERATION else DECELERATION * AIR_CONTROL) := by
  split <;> norm_num [DECELERATION, AIR_CONTROL]

theorem inputDir_of_zeroIntent (yaw : ℝ) (inp : InputState) (hz : ZeroIntent inp) :
    inputDir yaw inp = ⟨0, 0, 0⟩ := by
  obtain ⟨hw, ha, hs, hd, hj⟩ := hz
  simp [inputDir, hw, ha, hs, hd, not_lt.mpr hj]

theorem lowIntent_of_zeroIntent (yaw : ℝ) (inp : InputState) (hz : ZeroIntent inp) :
    ¬ 0.001 < lengthSq (inputDir yaw inp) := by
  rw [inputDir_of_zeroIntent yaw inp hz]
  norm_num [lengthSq]

theorem velocityAfterInput_of_lowIntent (δ yaw : ℝ) (inp : InputState) (g : Bool)
    (v : Vec3) (hlow : ¬ 0.001 < lengthSq (inputDir yaw inp)) :
    velocityAfterInput δ yaw inp g v =
      (let decel := if g = true then DECELERATION else DECELERATION * AIR_CONTROL
       let h := hSpeed v
       let nh := max 0 (h - decel * δ)
       let scale := if 0 < h then nh / h else 0
       (⟨v.x * scale, v.y, v.z * scale⟩ : Vec3)) := by
  unfold velocityAfterInput
  dsimp only
  rw [if_neg hlow]

theorem velocityAfterInput_of_zeroIntent (δ yaw : ℝ) (inp : InputState) (g : Bool)
    (v : Vec3) (hz : ZeroIntent inp) :
    velocityAfterInput δ yaw inp g v =
      (let decel := if g = true then DECELERATION else DECELERATION * AIR_CONTROL
       let h := hSpeed v
       let nh := max 0 (h - decel * δ)
       let scale := if 0 < h then nh / h else 0
       (⟨v.x * scale, v.y, v.z * scale⟩ : Vec3)) :=
  velocityAfterInput_of_lowIntent δ yaw inp g v (lowIntent_of_zeroIntent yaw inp hz)

theorem hSpeed_velocityAfterInput_lowIntent (δ yaw : ℝ) (inp : InputState) (g : Bool)
    (v : Vec3) (hlow : ¬ 0.001 < lengthSq (inputDir yaw inp)) (hδ : 0 ≤ δ) :
    hSpeed (velocityAfterInput δ yaw inp g v)
      = max 0 (hSpeed v - (if g = true then DECELERATION else DECELERATION * AIR_CONTROL) * δ) := by
  rw [velocityAfterInput_of_lowIntent δ yaw inp g v hlow]
  by_cases h0 : 0 < hSpeed v
  · have hscale : (0 : ℝ) ≤ max 0 (hSpeed v - (if g = true then DECELERATION
        else DECELERATION * AIR_CONTROL) * δ) / hSpeed v :=
      div_nonneg (le_max_left _ _) h0.le
    simp only [if_pos h0]
    rw [hSpeed_scale v _ hscale, mul_comm, div_mul_cancel₀ _ (ne_of_gt h0)]
  · have hv0 : hSpeed v = 0 := le_antisymm (not_lt.mp h0) (hSpeed_nonneg v)
    have hd : (0 : ℝ) ≤ (if g = true then DECELERATION else DECELERATION * AIR_CONTROL) * δ :=
      mul_nonneg (by linarith [decel_ge g]) hδ
    simp only [if_neg h0]
    rw [hSpeed_scale v 0 le_rfl, mul_zero, hv0]
    rw [max_eq_left (by linarith)]

theorem updatePlayerMovement_hSpeed_zeroIntent (δ yaw : ℝ) (inp : InputState)
    (boxes : List Box3) (st : PlayerState) (hz : ZeroIntent inp) (hδ : 0 ≤ δ) :
    hSpeed (updatePlayerMovement δ yaw inp boxes st).vel
      = max 0 (hSpeed st.vel
          - (if st.isGrounded = true then DECELERATION else DECELERATION * AIR_CONTROL) * δ) := by
  rw [updatePlayerMovement_hSpeed,
    hSpeed_velocityAfterInput_lowIntent δ yaw inp _ _ (lowIntent_of_zeroIntent yaw inp hz) hδ]

theorem velocityAfterInput_of_intent (δ yaw : ℝ) (inp : InputState) (g : Bool) (v : Vec3)
    (hdir : 0.001 < lengthSq (inputDir yaw inp)) :
    velocityAfterInput δ yaw inp g v =
      (if targetSpeed yaw inp < hSpeed (accelVec δ yaw inp g v) then
        (⟨(accelVec δ yaw inp g v).x * (targetSpeed yaw inp / hSpeed (accelVec δ yaw inp g v)),
          (accelVec δ yaw inp g v).y,
          (accelVec δ yaw inp g v).z * (targetSpeed yaw inp / hSpeed (accelVec δ yaw inp g v))⟩ : Vec3)
      else accelVec δ yaw inp g v) := by
  unfold velocityAfterInput accelVec
  dsimp only
  rw [if_pos hdir]

theorem cap_le (v1 : Vec3) (ts : ℝ) (hts : 0 < ts) :
    hSpeed (if ts < hSpeed v1 then
        (⟨v1.x * (ts / hSpeed v1), v1.y, v1.z * (ts / hSpeed v1)⟩ : Vec3)
      else v1) ≤ ts := by
  by_cases hc : ts < hSpeed v1
  · rw [if_pos hc, hSpeed_scale v1 _ (div_nonneg hts.le (hts.trans hc).le),
      mul_comm, div_mul_cancel₀ ts (ne_of_gt (hts.trans hc))]
  · rw [if_neg hc]
    exact not_lt.mp hc

theorem velocityAfterInput_cap (δ yaw : ℝ) (inp : InputState) (g : Bool) (v : Vec3)
    (hdir : 0.001 < lengthSq (inputDir yaw inp)) :
    hSpeed (velocityAfterInput δ yaw inp g v) ≤ targetSpeed yaw inp := by
  rw [velocityAfterInput_of_intent δ yaw inp g v hdir]
  exact cap_le (accelVec δ yaw inp g v) (targetSpeed yaw inp) (targetSpeed_pos yaw inp)

theorem zeroIntent_inpNone : ZeroIntent inpNone := by
  norm_num [ZeroIntent, inpNone, joyLengthSq]

theorem velocityAfterInput_zeroIntent_grounded (δ yaw : ℝ) (inp : InputState) (v : Vec3)
    (hz : ZeroIntent inp) :
    velocityAfterInput δ yaw inp true v =
      ⟨v.x * (if 0 < hSpeed v then max 0 (hSpeed v - DECELERATION * δ) / hSpeed v else 0),
       v.y,
       v.z * (if 0 < hSpeed v then max 0 (hSpeed v - DECELERATION * δ) / hSpeed v else 0)⟩ := by
  rw [velocityAfterInput_of_zeroIntent δ yaw inp true v hz]
  simp

theorem velAfterInput_sprint_eval :
    velocityAfterInput (1/40) 0 inpNone true ⟨15, 0, 0⟩ = ⟨14, 0, 0⟩ := by
  rw [velocityAfterInput_zeroIntent_grounded (1/40) 0 inpNone _ zeroIntent_inpNone]
  have h15 : hSpeed (⟨15, 0, 0⟩ : Vec3) = 15 := hSpeed_axis 15 0 (by norm_num)
  dsimp only
  rw [h15, if_pos (by norm_num : (0:ℝ) < 15)]
  have hm : max (0:ℝ) (15 - DECELERATION * (1/40)) = 14 := by
    norm_num [DECELERATION]
  rw [hm]
  norm_num [Vec3.mk.injEq]

theorem updatePlayerMovement_scale_zeroIntent (δ yaw : ℝ) (inp : InputState)
    (boxes : List Box3) (st : PlayerState) (hz : ZeroIntent inp) :
    ∃ c, 0 ≤ c ∧ (updatePlayerMovement δ yaw inp boxes st).vel.x = c * st.vel.x
      ∧ (updatePlayerMovement δ yaw inp boxes st).vel.z = c * st.vel.z := by
  refine ⟨(if 0 < hSpeed st.vel then
      max 0 (hSpeed st.vel - (if st.isGrounded = true then DECELERATION
        else DECELERATION * AIR_CONTROL) * δ) / hSpeed st.vel else 0), ?_, ?_, ?_⟩
  · by_cases h0 : 0 < hSpeed st.vel
    · rw [if_pos h0]
      exact div_nonneg (le_max_left _ _) h0.le
    · rw [if_neg h0]
  · rw [updatePlayerMovement_velx]
    unfold frameVelocity
    rw [applyGravity_x, velocityAfterInput_of_zeroIntent δ yaw inp _ _ hz]
    exact mul_comm _ _
  · rw [updatePlayerMovement_velz]
    unfold frameVelocity
    rw [applyGravity_z, velocityAfterInput_of_zeroIntent δ yaw inp _ _ hz]
    exact mul_comm _ _

theorem frameVelocity_nearBox :
    frameVelocity (1/40) 0 inpNone stNearBox = ⟨14, 0, 0⟩ := by
  unfold frameVelocity
  have h2 : velocityAfterInput (1/40) 0 inpNone stNearBox.isGrounded stNearBox.vel
      = ⟨14, 0, 0⟩ := velAfterInput_sprint_eval
  rw [h2]
  exact applyGravity_grounded ..

theorem candidatePos_nearBox :
    candidatePos (1/40) 0 inpNone stNearBox = ⟨2.35, 0, 3⟩ := by
  unfold candidatePos
  rw [frameVelocity_nearBox]
  dsimp only [stNearBox]
  norm_num [Vec3.mk.injEq]

theorem collide_nearBox : wouldCollide [boxAhead] (⟨2.35, 0, 3⟩ : Vec3) := by
  refine ⟨boxAhead, List.mem_singleton.mpr rfl, ?_⟩
  norm_num [intersectsBox, playerBoxAt, boxAhead, PLAYER_RADIUS, PLAYER_HEIGHT]

theorem free_nearBox : ¬ wouldCollide [boxAhead] stNearBox.pos := by
  rintro ⟨b, hb, hint⟩
  simp only [List.mem_singleton] at hb
  subst hb
  have h2 := hint.2.1
  norm_num [playerBoxAt, boxAhead, PLAYER_RADIUS, stNearBox] at h2

theorem clampCharacterPosition_y (p : Vec3) : (clampCharacterPosition p).y = p.y := rfl

theorem updatePlayerMovement_eq (δ yaw : ℝ) (inp : InputState) (boxes : List Box3)
    (st : PlayerState) :
    updatePlayerMovement δ yaw inp boxes st =
      (let v2 := frameVelocity δ yaw inp st
       let movedPos := if wouldCollide boxes (candidatePos δ yaw inp st) then st.pos
         else candidatePos δ yaw inp st
       let clamped := clampCharacterPosition movedPos
       let newPos := if clamped.y ≤ 0 then (⟨clamped.x, 0, clamped.z⟩ : Vec3) else clamped
       let v3 := if clamped.y ≤ 0 then (⟨v2.x, 0, v2.z⟩ : Vec3) else v2
       let g3 := if clamped.y ≤ 0 then true else if 0.1 < clamped.y then false else st.isGrounded
       let h := hSpeed v3
       let newRot := if 0.5 < h then
           st.rotY + (jsMod (atan2 v3.x v3.z - st.rotY + Real.pi) (2 * Real.pi) - Real.pi) * 15 * δ
         else st.rotY
       (⟨newPos, v3, newRot, g3, sprintFlag yaw inp⟩ : PlayerState)) := rfl

/-! ### Claim theorems -/

/-- Claim C1, counterexample.  With a frame delta inside the clamp range
(`1/40 ≤ 0.033`), no keys held (so the active cap is `WALK_SPEED`) and a
prior velocity at sprint speed — exactly the reachable situation one frame
after sprint input stops — the integrator leaves the horizontal speed at
`14`, far above the cap `8`: the zero-intent branch only decays speed by
`DECELERATION * delta` per frame and never applies the cap. -/
theorem speed_cap_counterexample :
    (0 : ℝ) ≤ 1/40 ∧ (1/40 : ℝ) ≤ 0.033
    ∧ sprintFlag 0 inpNone = false
    ∧ WALK_SPEED < hSpeed (updatePlayerMovement (1/40) 0 inpNone [] stSprint).vel := by
  refine ⟨by norm_num, by norm_num, by simp [sprintFlag, inpNone], ?_⟩
  rw [updatePlayerMovement_hSpeed (1/40) 0 inpNone [] stSprint]
  have h2 : velocityAfterInput (1/40) 0 inpNone stSprint.isGrounded stSprint.vel
      = ⟨14, 0, 0⟩ := velAfterInput_sprint_eval
  rw [h2, hSpeed_axis 14 0 (by norm_num)]
  norm_num [WALK_SPEED]

/-- Claim C1, amended.  For every frame with a delta in the clamp range:
the horizontal speed after `updatePlayerMovement` never exceeds
`max (prior horizontal speed) (active cap)`, and whenever the movement
intent is nonzero (the acceleration branch) it never exceeds the active
cap itself.  With zero intent the speed only decays toward zero and may
remain above the cap, which is the only failure of the original claim. -/
theorem speed_cap_amended (δ yaw : ℝ) (inp : InputState) (boxes : List Box3) (st : PlayerState)
    (hδ0 : 0 ≤ δ) (_hδ1 : δ ≤ 0.033) :
    hSpeed (updatePlayerMovement δ yaw inp boxes st).vel
      ≤ max (hSpeed st.vel) (targetSpeed yaw inp)
    ∧ (0.001 < lengthSq (inputDir yaw inp) →
        hSpeed (updatePlayerMovement δ yaw inp boxes st).vel ≤ targetSpeed yaw inp) := by
  have hb := updatePlayerMovement_hSpeed δ yaw inp boxes st
  constructor
  · by_cases hdir : 0.001 < lengthSq (inputDir yaw inp)
    · rw [hb]
      exact le_trans (velocityAfterInput_cap δ yaw inp st.isGrounded st.vel hdir)
        (le_max_right _ _)
    · rw [hb, hSpeed_velocityAfterInput_lowIntent δ yaw inp _ _ hdir hδ0]
      have hd : (0:ℝ) ≤ (if st.isGrounded = true then DECELERATION
          else DECELERATION * AIR_CONTROL) * δ :=
        mul_nonneg (by linarith [decel_ge st.isGrounded]) hδ0
      exact max_le (le_max_of_le_left (hSpeed_nonneg st.vel))
        (le_max_of_le_left (by linarith))
  · intro hdir
    rw [hb]
    exact velocityAfterInput_cap δ yaw inp st.isGrounded st.vel hdir

/-- Witness for the amended C1 at a concrete frame. -/
theorem speed_cap_amended_witness :
    hSpeed (updatePlayerMovement (1/40) 0 inpNone [] stRest).vel
      ≤ max (hSpeed stRest.vel) (targetSpeed 0 inpNone) :=
  (speed_cap_amended (1/40) 0 inpNone [] stRest (by norm_num) (by norm_num)).1

/-- Claim C2, counterexample.  `stNearBox` moves at sprint speed toward
`boxAhead`; the candidate position collides, yet the code leaves the
velocity component pointing into the box at `14` rather than zeroing it
(`src/main.js:777-779` only skips the position copy and never touches
`velocity`), contradicting the claim's "component of velocity into the box
is neutralized (zeroed)". -/
theorem collision_response_counterexample :
    wouldCollide [boxAhead] (candidatePos (1/40) 0 inpNone stNearBox)
    ∧ (updatePlayerMovement (1/40) 0 inpNone [boxAhead] stNearBox).vel.x = 14
    ∧ (updatePlayerMovement (1/40) 0 inpNone [boxAhead] stNearBox).vel.x ≠ 0 := by
  refine ⟨by rw [candidatePos_nearBox]; exact collide_nearBox, ?_, ?_⟩
  · rw [updatePlayerMovement_velx, frameVelocity_nearBox]
  · rw [updatePlayerMovement_velx, frameVelocity_nearBox]
    dsimp only
    norm_num

/-- Claim C2, amended.  When the candidate next position would collide
with a registered collider box, the whole position update — horizontal and
vertical — is refused: the player keeps the prior position (here assumed
in bounds and at or above ground, so clamping and floor snapping do not
move it), the position does not penetrate any box provided the prior
position did not, and the velocity is left exactly as the
acceleration/gravity phase produced it — the collision response does not
zero any component. -/
theorem collision_response_amended (δ yaw : ℝ) (inp : InputState) (boxes : List Box3)
    (st : PlayerState)
    (hcol : wouldCollide boxes (candidatePos δ yaw inp st))
    (hfree : ¬ wouldCollide boxes st.pos)
    (hx1 : -145 ≤ st.pos.x) (hx2 : st.pos.x ≤ 180)
    (hz1 : -80 ≤ st.pos.z) (hz2 : st.pos.z ≤ 240)
    (hy : 0 ≤ st.pos.y) :
    (updatePlayerMovement δ yaw inp boxes st).pos = st.pos
    ∧ (updatePlayerMovement δ yaw inp boxes st).vel.x = (frameVelocity δ yaw inp st).x
    ∧ (updatePlayerMovement δ yaw inp boxes st).vel.z = (frameVelocity δ yaw inp st).z
    ∧ ¬ wouldCollide boxes (updatePlayerMovement δ yaw inp boxes st).pos := by
  have hclamp : clampCharacterPosition st.pos = st.pos := by
    unfold clampCharacterPosition MAP_BOUNDS
    dsimp only
    rw [min_eq_right hx2, max_eq_right hx1, min_eq_right hz2, max_eq_right hz1]
  have hcol2 : wouldCollide boxes
      (⟨st.pos.x + (applyGravity δ st.isGrounded
          (velocityAfterInput δ yaw inp st.isGrounded st.vel)).x * δ,
        st.pos.y + (applyGravity δ st.isGrounded
          (velocityAfterInput δ yaw inp st.isGrounded st.vel)).y * δ,
        st.pos.z + (applyGravity δ st.isGrounded
          (velocityAfterInput δ yaw inp st.isGrounded st.vel)).z * δ⟩ : Vec3) := hcol
  have hpos : (updatePlayerMovement δ yaw inp boxes st).pos = st.pos := by
    unfold updatePlayerMovement updateFromVelocity
    dsimp only
    rw [if_pos hcol2, hclamp]
    by_cases hy0 : st.pos.y ≤ 0
    · have h0 : st.pos.y = 0 := le_antisymm hy0 hy
      rw [if_pos hy0, ← h0]
    · rw [if_neg hy0]
  refine ⟨hpos, updatePlayerMovement_velx .., updatePlayerMovement_velz .., ?_⟩
  rw [hpos]
  exact hfree

/-- Witness for the amended C2 at the concrete wall scenario. -/
theorem collision_response_amended_witness :
    (updatePlayerMovement (1/40) 0 inpNone [boxAhead] stNearBox).pos = stNearBox.pos
    ∧ (updatePlayerMovement (1/40) 0 inpNone [boxAhead] stNearBox).vel.x
        = (frameVelocity (1/40) 0 inpNone stNearBox).x
    ∧ (updatePlayerMovement (1/40) 0 inpNone [boxAhead] stNearBox).vel.z
        = (frameVelocity (1/40) 0 inpNone stNearBox).z
    ∧ ¬ wouldCollide [boxAhead] (updatePlayerMovement (1/40) 0 inpNone [boxAhead] stNearBox).pos :=
  collision_response_amended (1/40) 0 inpNone [boxAhead] stNearBox
    (by rw [candidatePos_nearBox]; exact collide_nearBox)
    free_nearBox
    (by norm_num [stNearBox]) (by norm_num [stNearBox])
    (by norm_num [stNearBox]) (by norm_num [stNearBox])
    (by norm_num [stNearBox])

/-- Claim C4.  On every state satisfying the reachability invariant
`GroundInv` (which holds at spawn and, as proved here, is preserved both
by `updatePlayerMovement` and by the Space-key jump handler), the height
after an update is never below the ground plane `0` and the grounded flag
is true exactly when the height is at most `0` above the ground — the
tolerance witnessing the claim's "small epsilon" is `0`.  The `0.1` in the
code is a hysteresis band: inside `(0, 0.1]` the flag keeps its prior
value, and from invariant states that prior value is necessarily
"airborne", so the iff holds with tolerance zero even during jumps. -/
theorem ground_invariant (δ yaw : ℝ) (inp : InputState) (boxes : List Box3) (st : PlayerState)
    (hInv : GroundInv st) :
    GroundInv (updatePlayerMovement δ yaw inp boxes st)
    ∧ 0 ≤ (updatePlayerMovement δ yaw inp boxes st).pos.y
    ∧ ((updatePlayerMovement δ yaw inp boxes st).isGrounded = true
        ↔ (updatePlayerMovement δ yaw inp boxes st).pos.y ≤ 0)
    ∧ GroundInv (jumpKeydown st) := by
  have hjump : GroundInv (jumpKeydown st) := by
    unfold jumpKeydown
    split
    · exact ⟨hInv.1, by intro h; simp at h⟩
    · exact hInv
  rw [updatePlayerMovement_eq]
  dsimp only
  simp only [clampCharacterPosition_y]
  cases hgr : st.isGrounded with
  | true =>
    obtain ⟨hy0, hv0⟩ := hInv.2 hgr
    have hv2y : (frameVelocity δ yaw inp st).y = 0 := by
      unfold frameVelocity
      rw [hgr, applyGravity_grounded, velocityAfterInput_y]
      exact hv0
    have hcpy : (candidatePos δ yaw inp st).y = 0 := by
      unfold candidatePos
      dsimp only
      rw [hv2y, hy0]
      ring
    have hmy : (if wouldCollide boxes (candidatePos δ yaw inp st) then st.pos
        else candidatePos δ yaw inp st).y = 0 := by
      split
      · exact hy0
      · exact hcpy
    simp only [hmy, le_refl, if_true]
    exact ⟨⟨le_refl 0, fun _ => ⟨rfl, rfl⟩⟩, trivial, by simp, hjump⟩
  | false =>
    by_cases hly : (if wouldCollide boxes (candidatePos δ yaw inp st) then st.pos
        else candidatePos δ yaw inp st).y ≤ 0
    · simp only [if_pos hly]
      exact ⟨⟨le_refl 0, fun _ => ⟨rfl, rfl⟩⟩, le_refl 0, by simp, hjump⟩
    · simp only [if_neg hly]
      push_neg at hly
      refine ⟨⟨?_, ?_⟩, ?_, ?_, hjump⟩
      · simp only [clampCharacterPosition_y]
        exact hly.le
      · intro hg3
        exfalso
        revert hg3
        split
        · simp
        · simp
      · simp only [clampCharacterPosition_y]
        exact hly.le
      · constructor
        · intro hg3
          exfalso
          revert hg3
          split
          · simp
          · simp
        · intro hyle
          exfalso
          simp only [clampCharacterPosition_y] at hyle
          exact absurd hyle (not_le.mpr hly)

/-- Witness for C4 at a concrete grounded frame. -/
theorem ground_invariant_witness :
    ((updatePlayerMovement (1/40) 0 inpNone [] stRest).isGrounded = true
      ↔ (updatePlayerMovement (1/40) 0 inpNone [] stRest).pos.y ≤ 0)
    ∧ GroundInv (jumpKeydown stRest) :=
  ⟨(ground_invariant (1/40) 0 inpNone [] stRest
      ⟨le_refl 0, fun _ => ⟨rfl, rfl⟩⟩).2.2.1,
   (ground_invariant (1/40) 0 inpNone [] stRest
      ⟨le_refl 0, fun _ => ⟨rfl, rfl⟩⟩).2.2.2⟩

/-- Claim C5.  After every movement update the position's `x` lies in
`[-145, 180]` and its `z` in `[-80, 240]` — `clampCharacterPosition` runs
unconditionally at `src/main.js:780`, so this holds for every starting
state, every input, every camera yaw and every collider set. -/
theorem map_bounds_clamp (δ yaw : ℝ) (inp : InputState) (boxes : List Box3) (st : PlayerState) :
    -145 ≤ (updatePlayerMovement δ yaw inp boxes st).pos.x
    ∧ (updatePlayerMovement δ yaw inp boxes st).pos.x ≤ 180
    ∧ -80 ≤ (updatePlayerMovement δ yaw inp boxes st).pos.z
    ∧ (updatePlayerMovement δ yaw inp boxes st).pos.z ≤ 240 := by
  refine ⟨?_, ?_, ?_, ?_⟩ <;>
    (unfold updatePlayerMovement updateFromVelocity clampCharacterPosition MAP_BOUNDS
     dsimp only
     split <;> split) <;>
    first
      | exact le_max_left _ _
      | exact max_le (by norm_num) (min_le_left _ _)

/-- Claim C3.  Over any sequence of zero-intent frames whose deltas lie in
`[dmin, 0.033]` for some positive `dmin`: the horizontal speed is
monotonically non-increasing, it is never negative, it is exactly `0` from
frame `n` on as soon as `20 * dmin * n` covers the initial speed (a bound
on the number of frames, since the deceleration rate is at least
`DECELERATION * AIR_CONTROL = 20`), and every frame rescales the
horizontal velocity by a nonnegative factor, so its direction is never
reversed. -/
theorem zero_intent_deceleration (δs yaws : ℕ → ℝ) (inps : ℕ → InputState)
    (boxes : List Box3) (st : PlayerState) (dmin : ℝ)
    (hZ : ∀ n, ZeroIntent (inps n)) (hd0 : 0 < dmin)
    (hδ : ∀ n, dmin ≤ δs n ∧ δs n ≤ 0.033) :
    (∀ n, hSpeed (runFrames δs yaws inps boxes st (n+1)).vel
        ≤ hSpeed (runFrames δs yaws inps boxes st n).vel)
    ∧ (∀ n, 0 ≤ hSpeed (runFrames δs yaws inps boxes st n).vel)
    ∧ (∀ n : ℕ, hSpeed st.vel ≤ 20 * dmin * n →
        hSpeed (runFrames δs yaws inps boxes st n).vel = 0)
    ∧ (∀ n, ∃ c, 0 ≤ c
        ∧ (runFrames δs yaws inps boxes st (n+1)).vel.x
            = c * (runFrames δs yaws inps boxes st n).vel.x
        ∧ (runFrames δs yaws inps boxes st (n+1)).vel.z
            = c * (runFrames δs yaws inps boxes st n).vel.z) := by
  have hδ0 : ∀ n, 0 ≤ δs n := fun n => le_trans hd0.le (hδ n).1
  have hstep : ∀ n, hSpeed (runFrames δs yaws inps boxes st (n+1)).vel
      = max 0 (hSpeed (runFrames δs yaws inps boxes st n).vel
          - (if (runFrames δs yaws inps boxes st n).isGrounded = true then DECELERATION
             else DECELERATION * AIR_CONTROL) * δs n) := fun n =>
    updatePlayerMovement_hSpeed_zeroIntent (δs n) (yaws n) (inps n) boxes
      (runFrames δs yaws inps boxes st n) (hZ n) (hδ0 n)
  have hdprod : ∀ n, 20 * dmin
      ≤ (if (runFrames δs yaws inps boxes st n).isGrounded = true then DECELERATION
         else DECELERATION * AIR_CONTROL) * δs n := by
    intro n
    have h1 := decel_ge (runFrames δs yaws inps boxes st n).isGrounded
    have h2 := (hδ n).1
    have h3 := hδ0 n
    nlinarith [mul_nonneg (by linarith : (0:ℝ) ≤ (if (runFrames δs yaws inps boxes st n).isGrounded = true
        then DECELERATION else DECELERATION * AIR_CONTROL) - 20) h3,
      mul_nonneg (by norm_num : (0:ℝ) ≤ 20) (by linarith : (0:ℝ) ≤ δs n - dmin)]
  have hmono : ∀ n, hSpeed (runFrames δs yaws inps boxes st (n+1)).vel
      ≤ hSpeed (runFrames δs yaws inps boxes st n).vel := by
    intro n
    rw [hstep n]
    exact max_le (hSpeed_nonneg _)
      (sub_le_self _ (le_trans (by linarith [hd0]) (hdprod n)))
  have hbound : ∀ n, hSpeed (runFrames δs yaws inps boxes st n).vel
      ≤ max 0 (hSpeed st.vel - 20 * dmin * n) := by
    intro n
    induction n with
    | zero =>
      have : hSpeed (runFrames δs yaws inps boxes st 0).vel = hSpeed st.vel := rfl
      rw [this]
      push_cast
      simp only [mul_zero, sub_zero]
      exact le_max_right (0 : ℝ) (hSpeed st.vel)
    | succ n ih =>
      rw [hstep n]
      rcases le_or_lt (hSpeed st.vel - 20 * dmin * n) 0 with hc | hc
      · have hn0 : hSpeed (runFrames δs yaws inps boxes st n).vel ≤ 0 := by
          calc hSpeed (runFrames δs yaws inps boxes st n).vel
              ≤ max 0 (hSpeed st.vel - 20 * dmin * n) := ih
            _ = 0 := max_eq_left hc
        refine max_le (le_max_left _ _) (le_trans ?_ (le_max_left _ _))
        have := hdprod n
        linarith
      · have ih2 : hSpeed (runFrames δs yaws inps boxes st n).vel
            ≤ hSpeed st.vel - 20 * dmin * n := by
          calc hSpeed (runFrames δs yaws inps boxes st n).vel
              ≤ max 0 (hSpeed st.vel - 20 * dmin * n) := ih
            _ = hSpeed st.vel - 20 * dmin * n := max_eq_right hc.le
        refine max_le (le_max_left _ _) (le_trans ?_ (le_max_right _ _))
        have := hdprod n
        push_cast
        linarith
  refine ⟨hmono, fun n => hSpeed_nonneg _, fun n hn => ?_, fun n => ?_⟩
  · have h1 := hbound n
    have h2 : max 0 (hSpeed st.vel - 20 * dmin * n) = 0 := max_eq_left (by linarith)
    exact le_antisymm (by rw [h2] at h1; exact h1) (hSpeed_nonneg _)
  · exact updatePlayerMovement_scale_zeroIntent (δs n) (yaws n) (inps n) boxes
      (runFrames δs yaws inps boxes st n) (hZ n)

/-- Witness for C3: from speed `5` with deltas `1/40`, ten zero-intent
frames reach speed exactly `0`. -/
theorem zero_intent_deceleration_witness :
    hSpeed (runFrames (fun _ => 1/40) (fun _ => 0) (fun _ => inpNone) [] stWalk 10).vel = 0
    ∧ 0 ≤ hSpeed (runFrames (fun _ => 1/40) (fun _ => 0) (fun _ => inpNone) [] stWalk 0).vel := by
  have h := zero_intent_deceleration (fun _ => 1/40) (fun _ => 0) (fun _ => inpNone) [] stWalk
    (1/40) (fun _ => zeroIntent_inpNone) (by norm_num) (fun _ => ⟨le_refl _, by norm_num⟩)
  refine ⟨h.2.2.1 10 ?_, h.2.1 0⟩
  have h5 : hSpeed stWalk.vel = 5 := by
    show hSpeed ⟨3, 0, 4⟩ = 5
    unfold hSpeed
    rw [show (3:ℝ) ^ 2 + 4 ^ 2 = 5 ^ 2 by norm_num, Real.sqrt_sq (by norm_num : (0:ℝ) ≤ 5)]
  rw [h5]
  push_cast
  norm_num

/-- Claim C10.  The Space-key handler: grounded, it sets `velocity.y` to
`JUMP_FORCE = 12` and clears `isGrounded` in the same event, leaving the
other components alone; airborne, it changes nothing (no double jump). -/
theorem jump_mechanic (st : PlayerState) :
    (st.isGrounded = true →
      jumpKeydown st = { st with vel := ⟨st.vel.x, JUMP_FORCE, st.vel.z⟩, isGrounded := false })
    ∧ (st.isGrounded = false → jumpKeydown st = st)
    ∧ JUMP_FORCE = 12 := by
  refine ⟨fun h => ?_, fun h => ?_, rfl⟩
  · unfold jumpKeydown
    rw [if_pos h]
  · unfold jumpKeydown
    rw [if_neg (by simp [h])]

/-- Witness for C10: a grounded jump and a refused air jump. -/
theorem jump_mechanic_witness :
    jumpKeydown stRest = ⟨⟨0, 0, 0⟩, ⟨0, JUMP_FORCE, 0⟩, 0, false, false⟩
    ∧ jumpKeydown stAir = stAir := by
  constructor
  · rw [(jump_mechanic stRest).1 rfl]
    rfl
  · exact (jump_mechanic stAir).2.1 rfl

/-- Claim C6, counterexample.  One camera update with target pitch `100`
and delta `0.033` leaves the pitch at `π/2 - 0.001 ≈ 1.5698`, above the
declared `MAX_PITCH = 1.2`: the clamp actually applied in `updateCamera`
(`src/main.js:702-706`) uses `[-π/10 + 0.001, π/2 - 0.001]`, and the
`MIN_PITCH`/`MAX_PITCH` clamp (line 318) is commented out. -/
theorem pitch_range_counterexample :
    MAX_PITCH < (updateCamera 0.033 0 100 2.8 ⟨0, 0, 0⟩ camZero).pitch := by
  have hp1 : lerp camZero.pitch 100 (CAMERA_SMOOTHING * 0.033) = 16.5 := by
    norm_num [lerp, CAMERA_SMOOTHING, camZero]
  show MAX_PITCH < clampR (lerp camZero.pitch 100 (CAMERA_SMOOTHING * 0.033))
    (-Real.pi / 10 + 0.001) (Real.pi / 2 - 0.001)
  rw [hp1]
  unfold clampR
  have hhi : Real.pi / 2 - 0.001 ≤ 16.5 := by nlinarith [Real.pi_le_four]
  rw [min_eq_left hhi, max_eq_right (by nlinarith [Real.pi_gt_three])]
  norm_num [MAX_PITCH]
  nlinarith [Real.pi_gt_three]

/-- Claim C6, amended.  After every camera update the pitch lies within
the clamp range the code actually applies, `[-π/10 + 0.001, π/2 - 0.001]`,
for any state and inputs; this range is not contained in
`[MIN_PITCH, MAX_PITCH]` — its upper end exceeds `MAX_PITCH = 1.2` (and
its lower end `≈ -0.313` never reaches `MIN_PITCH = -4.2`). -/
theorem pitch_range_amended (δ ty tp d : ℝ) (p : Vec3) (c : CameraState) :
    -Real.pi / 10 + 0.001 ≤ (updateCamera δ ty tp d p c).pitch
    ∧ (updateCamera δ ty tp d p c).pitch ≤ Real.pi / 2 - 0.001
    ∧ MAX_PITCH < Real.pi / 2 - 0.001 := by
  refine ⟨?_, ?_, ?_⟩
  · show -Real.pi / 10 + 0.001 ≤ max (-Real.pi / 10 + 0.001)
      (min (Real.pi / 2 - 0.001) (lerp c.pitch tp (CAMERA_SMOOTHING * δ)))
    exact le_max_left _ _
  · show max (-Real.pi / 10 + 0.001)
      (min (Real.pi / 2 - 0.001) (lerp c.pitch tp (CAMERA_SMOOTHING * δ))) ≤ Real.pi / 2 - 0.001
    exact max_le (by nlinarith [Real.pi_gt_three]) (min_le_left _ _)
  · norm_num [MAX_PITCH]
    nlinarith [Real.pi_gt_three]

/-- Claim C7, counterexample.  The yaw smoothing is
`lerp(yaw, target, CAMERA_SMOOTHING * delta)` (`src/main.js:698`), a
per-step blend whose outcome depends on how the elapsed time is
subdivided: two updates of `0.01 s` from yaw `0` toward `1` land at
`0.0975`, while a single `0.02 s` update lands at `0.1`. -/
theorem camera_smoothing_counterexample :
    (updateCamera (1/100) 1 0 2.8 ⟨0, 0, 0⟩
        (updateCamera (1/100) 1 0 2.8 ⟨0, 0, 0⟩ camZero)).yaw
      ≠ (updateCamera (1/50) 1 0 2.8 ⟨0, 0, 0⟩ camZero).yaw := by
  have hyaw : ∀ (δ ty tp d : ℝ) (p : Vec3) (c : CameraState),
      (updateCamera δ ty tp d p c).yaw
        = (1 - CAMERA_SMOOTHING * δ) * c.yaw + CAMERA_SMOOTHING * δ * ty :=
    fun δ ty tp d p c => rfl
  simp only [hyaw]
  norm_num [CAMERA_SMOOTHING, camZero]

/-- Claim C7, amended.  The smoothing moves the current yaw toward the
target by the fixed per-step fraction `CAMERA_SMOOTHING * delta` — a
plain lerp, not an exp-decay blend — and is therefore frame-rate
dependent: two steps of `1/100 s` yield `39/400` while one step of
`1/50 s` yields `1/10`. -/
theorem camera_smoothing_amended :
    (∀ (δ ty tp d : ℝ) (p : Vec3) (c : CameraState),
        (updateCamera δ ty tp d p c).yaw
          = (1 - CAMERA_SMOOTHING * δ) * c.yaw + CAMERA_SMOOTHING * δ * ty)
    ∧ (updateCamera (1/100) 1 0 2.8 ⟨0, 0, 0⟩
        (updateCamera (1/100) 1 0 2.8 ⟨0, 0, 0⟩ camZero)).yaw = 39/400
    ∧ (updateCamera (1/50) 1 0 2.8 ⟨0, 0, 0⟩ camZero).yaw = 1/10 := by
  have hyaw : ∀ (δ ty tp d : ℝ) (p : Vec3) (c : CameraState),
      (updateCamera δ ty tp d p c).yaw
        = (1 - CAMERA_SMOOTHING * δ) * c.yaw + CAMERA_SMOOTHING * δ * ty :=
    fun δ ty tp d p c => rfl
  refine ⟨hyaw, ?_, ?_⟩ <;>
    (simp only [hyaw]
     norm_num [CAMERA_SMOOTHING, camZero])

theorem dist_ge_of_sq (a b : Vec3)
    (h : 16 ≤ (a.x - b.x) ^ 2 + (a.y - b.y) ^ 2 + (a.z - b.z) ^ 2) :
    ¬ distanceTo a b < INTERACT_DISTANCE := by
  rw [not_lt, distanceTo]
  have h4 : INTERACT_DISTANCE = Real.sqrt 16 := by
    rw [show (16:ℝ) = 4 ^ 2 by norm_num, Real.sqrt_sq (by norm_num : (0:ℝ) ≤ 4)]
    norm_num [INTERACT_DISTANCE]
  rw [h4]
  exact Real.sqrt_le_sqrt h

theorem checkMissionProximityList_spec (p : Vec3) (l : List MissionStop) :
    (∀ i, checkMissionProximityList p l = some i ↔
      (i < l.length ∧ distanceTo (l.getD i noStop).pos p < INTERACT_DISTANCE
        ∧ ∀ j, j < i → ¬ distanceTo (l.getD j noStop).pos p < INTERACT_DISTANCE))
    ∧ (checkMissionProximityList p l = none ↔
        ∀ j, j < l.length → ¬ distanceTo (l.getD j noStop).pos p < INTERACT_DISTANCE) := by
  induction l with
  | nil =>
    constructor
    · intro i
      simp [checkMissionProximityList]
    · simp [checkMissionProximityList]
  | cons s t ih =>
    by_cases hs : distanceTo s.pos p < INTERACT_DISTANCE
    · constructor
      · intro i
        simp only [checkMissionProximityList, if_pos hs]
        constructor
        · intro h
          have h0 : i = 0 := ((Option.some.injEq 0 i).mp h).symm
          subst h0
          refine ⟨by simp, by simpa using hs, fun j hj => absurd hj (Nat.not_lt_zero j)⟩
        · rintro ⟨hi, hnear, hmin⟩
          have h0 : i = 0 := by
            by_contra hne
            exact (hmin 0 (Nat.pos_of_ne_zero hne)) (by simpa using hs)
          subst h0
          rfl
      · simp only [checkMissionProximityList, if_pos hs]
        constructor
        · intro h
          exact absurd h (by simp)
        · intro h
          exact absurd (by simpa using hs) (h 0 (by simp))
    · constructor
      · intro i
        simp only [checkMissionProximityList, if_neg hs]
        rw [Option.map_eq_some']
        constructor
        · rintro ⟨a, ha, rfl⟩
          obtain ⟨ha1, ha2, ha3⟩ := (ih.1 a).mp ha
          refine ⟨by simpa using ha1, by simpa using ha2, ?_⟩
          intro j hj
          cases j with
          | zero => simpa using hs
          | succ m =>
            have hm : m < a := by omega
            simpa using ha3 m hm
        · rintro ⟨hi, hnear, hmin⟩
          cases i with
          | zero => exact absurd (by simpa using hnear) hs
          | succ m =>
            refine ⟨m, (ih.1 m).mpr ⟨?_, by simpa using hnear, ?_⟩, rfl⟩
            · simp only [List.length_cons] at hi
              omega
            · intro j hj
              simpa using hmin (j+1) (by omega)
      · simp only [checkMissionProximityList, if_neg hs, Option.map_eq_none']
        rw [ih.2]
        constructor
        · intro h j hj
          cases j with
          | zero => simpa using hs
          | succ m =>
            have hm : m < t.length := by
              simp only [List.length_cons] at hj
              omega
            simpa using h m hm
        · intro h j hj
          have := h (j+1) (by simp only [List.length_cons]; omega)
          simpa using this

/-- Claim C8.  `checkMissionProximity` scans the mission stops in list
order and activates exactly the first stop whose Euclidean distance to
the player is strictly below `INTERACT_DISTANCE = 4`: a returned index is
in range, within the radius, and every earlier stop is out of range
(first-match-in-list-order, not nearest-first; at most one active index
by construction), and the result is `none` exactly when no stop is within
the radius. -/
theorem mission_proximity_first_match (stops : List MissionStop) (p : Vec3) :
    (∀ i, checkMissionProximity stops p = some i ↔
      (i < stops.length ∧ distanceTo (stops.getD i noStop).pos p < INTERACT_DISTANCE
        ∧ ∀ j, j < i → ¬ distanceTo (stops.getD j noStop).pos p < INTERACT_DISTANCE))
    ∧ (checkMissionProximity stops p = none ↔
        ∀ j, j < stops.length → ¬ distanceTo (stops.getD j noStop).pos p < INTERACT_DISTANCE) :=
  checkMissionProximityList_spec p stops

/-- Witness for C8 on the four literal mission stops: standing on the
"events" stop reports index `0`; far away at `(100, 0, 0)` reports none. -/
theorem mission_proximity_first_match_witness :
    checkMissionProximity missionStops ⟨0, 0, 130⟩ = some 0
    ∧ checkMissionProximity missionStops ⟨100, 0, 0⟩ = none := by
  constructor
  · refine ((mission_proximity_first_match missionStops ⟨0, 0, 130⟩).1 0).mpr
      ⟨by norm_num [missionStops], ?_, fun j hj => absurd hj (Nat.not_lt_zero j)⟩
    show distanceTo (⟨⟨0, 0, 130⟩, "events"⟩ : MissionStop).pos ⟨0, 0, 130⟩ < INTERACT_DISTANCE
    norm_num [distanceTo, INTERACT_DISTANCE, Real.sqrt_zero]
  · refine (mission_proximity_first_match missionStops ⟨100, 0, 0⟩).2.mpr ?_
    intro j hj
    have hj4 : j < 4 := by simpa [missionStops] using hj
    interval_cases j <;>
      (refine dist_ge_of_sq _ _ ?_
       norm_num [missionStops])

/-- Claim C9.  Every division of the normalization and speed-scaling steps
in the movement integrator is guarded: the instrumented
`updatePlayerMovementChecked`, which refuses any zero denominator, never
fails and always returns exactly the state the real integrator produces —
for every input state, including zero velocity and zero intent the frame
yields a well-defined state. -/
theorem checked_cap_eq (v1 : Vec3) (ts : ℝ) (hts : 0 < ts) :
    (if ts < hSpeed v1 then
        (if hSpeed v1 = 0 then none else some (ts / hSpeed v1)).bind fun a =>
          some (⟨v1.x * a, v1.y, v1.z * a⟩ : Vec3)
      else some v1)
    = some (if ts < hSpeed v1 then
        (⟨v1.x * (ts / hSpeed v1), v1.y, v1.z * (ts / hSpeed v1)⟩ : Vec3)
      else v1) := by
  by_cases hc : ts < hSpeed v1
  · rw [if_pos hc, if_pos hc, if_neg (ne_of_gt (lt_trans hts hc))]
    rfl
  · rw [if_neg hc, if_neg hc]

theorem checked_decel_eq (v : Vec3) (nh : ℝ) :
    ((if 0 < hSpeed v then (if hSpeed v = 0 then none else some (nh / hSpeed v)) else some 0).bind
        fun a => some (⟨v.x * a, v.y, v.z * a⟩ : Vec3))
    = some (⟨v.x * (if 0 < hSpeed v then nh / hSpeed v else 0), v.y,
        v.z * (if 0 < hSpeed v then nh / hSpeed v else 0)⟩ : Vec3) := by
  by_cases h : 0 < hSpeed v
  · rw [if_pos h, if_pos h, if_neg (ne_of_gt h)]
    rfl
  · rw [if_neg h, if_neg h]
    rfl

theorem no_division_by_zero (δ yaw : ℝ) (inp : InputState) (boxes : List Box3)
    (st : PlayerState) :
    updatePlayerMovementChecked δ yaw inp boxes st
      = some (updatePlayerMovement δ yaw inp boxes st) := by
  have hcore : ∀ (g : Bool) (v : Vec3),
      velocityAfterInputChecked δ yaw inp g v = some (velocityAfterInput δ yaw inp g v) := by
    intro g v
    unfold velocityAfterInputChecked velocityAfterInput checkedNormalize normalize guardedDiv
    dsimp only
    by_cases hdir : 0.001 < lengthSq (inputDir yaw inp)
    · rw [if_pos hdir, if_pos hdir]
      have hl : Real.sqrt (lengthSq (inputDir yaw inp)) ≠ 0 :=
        ne_of_gt (Real.sqrt_pos.mpr (lt_trans (by norm_num) hdir))
      rw [if_neg hl, if_neg hl]
      simp only [Option.some_bind]
      exact checked_cap_eq _ _ (targetSpeed_pos yaw inp)
    · rw [if_neg hdir, if_neg hdir]
      exact checked_decel_eq _ _
  unfold updatePlayerMovementChecked updatePlayerMovement
  rw [hcore st.isGrounded st.vel]
  rfl

end Ahouba
